import Mathlib

/-!
Shallow embedding of the biodumpy downloader modules
(`src/biodumpy/inputs/COL.py`, `src/biodumpy/inputs/INaturalist.py`,
`src/biodumpy/inputs/NCBI.py`) together with theorems settling the
spec claims about them.

Conventions used throughout the embedding:
* HTTP responses are passed in as already-parsed values (status code plus
  the parsed JSON body); the network itself is outside the model.
* Python `None` is modelled by `Option.none`; a JSON object field read with
  `dict.get` is an `Option` field of the corresponding structure.
* Log output (`logging.error`, `logging.warning`), `print` calls and
  `time.sleep` are modelled as explicit event lists returned alongside the
  result, so claims about logging and backoff can be stated.
* A Python run-time error that the code can raise on the modelled paths is
  an explicit error constructor in an `Except` result.
-/

/-! ## Python string primitives

`String.splitOn` and `String.replace` of the Lean library are defined by
well-founded recursion and do not reduce inside the kernel, so the Python
string methods used by the code are modelled by structurally recursive
functions on character lists. -/

/-- Worker for `pySplitOn`: scan the character list, emitting the current
segment (accumulated reversed in `cur`) at every non-overlapping
occurrence of `pat`.  `fuel` starts at the length of the scanned list and
never runs out for a non-empty pattern. -/
def pySplitOnAux (pat : List Char) : Nat → List Char → List Char → List String
  | 0, l, cur => [String.mk (cur.reverse ++ l)]
  | _ + 1, [], cur => [String.mk cur.reverse]
  | fuel + 1, c :: rest, cur =>
    if pat.isPrefixOf (c :: rest) then
      String.mk cur.reverse :: pySplitOnAux pat fuel ((c :: rest).drop pat.length) []
    else
      pySplitOnAux pat fuel rest (c :: cur)

/-- Python `s.split(sep)` for a non-empty separator: split at every
non-overlapping occurrence, keeping empty segments (so the result is never
empty).  The code only splits on `"/"` and `"\n\n"`; an empty separator,
where Python raises `ValueError`, returns `[s]`. -/
def pySplitOn (sep : String) (s : String) : List String :=
  if sep.data = [] then [s]
  else pySplitOnAux sep.data s.data.length s.data []

/-- Worker for `pyReplace`: left-to-right, non-overlapping replacement of
`pat` by `rep`.  `fuel` starts at the length of the scanned list and
bounds the recursion; it never runs out for a non-empty pattern. -/
def pyReplaceAux (pat rep : List Char) : Nat → List Char → List Char
  | 0, l => l
  | _ + 1, [] => []
  | fuel + 1, c :: rest =>
    if pat.isPrefixOf (c :: rest) then
      rep ++ pyReplaceAux pat rep fuel ((c :: rest).drop pat.length)
    else
      c :: pyReplaceAux pat rep fuel rest

/-- Python `s.replace(pat, rep)` for a non-empty pattern (the only use in
the code has `pat = "square"`); an empty pattern returns `s` unchanged. -/
def pyReplace (s pat rep : String) : String :=
  if pat.data = [] then s
  else String.mk (pyReplaceAux pat.data rep.data s.data.length s.data)

/-! ## COL (`src/biodumpy/inputs/COL.py`) -/

namespace COL

/-- The nested `usage` object of a Checklistbank result item.  Only the two
fields the code reads (`usage.get("status")`, `usage.get("id")`) are
modelled; `extra` stands for the rest of the provider structure, which the
code passes through opaquely. -/
structure Usage where
  id : Option String
  status : Option String
  extra : String
  deriving DecidableEq, Repr

/-- One entry of the `classification` lineage list.  The code reads
`item["id"]`; the `id` key is modelled as always present with a possibly
null value.  `data` stands for the remaining fields of the entry, passed
through opaquely. -/
structure ClassEntry where
  id : Option String
  data : String
  deriving DecidableEq, Repr

/-- One item of the `result` list of the Checklistbank search response.
`id` models `item.get("id")` (`none` = key absent or null), `usage` models
`item.get("usage")` and `classification` models
`item.get("classification")`. -/
structure ColItem where
  id : Option String
  usage : Option Usage
  classification : Option (List ClassEntry)
  deriving DecidableEq, Repr

/-- The parsed Checklistbank search response: HTTP status code plus the
parsed JSON body fields the code reads (`payload["empty"]`,
`payload["result"]`). -/
structure ColResponse where
  status_code : Nat
  empty : Bool
  result : List ColItem
  deriving DecidableEq, Repr

/-- The output record shape built by `COL._download`. -/
structure NomenclatureRecord where
  origin_taxon : String
  taxon_id : Option String
  status : Option String
  usage : Option Usage
  classification : Option (List ClassEntry)
  deriving DecidableEq, Repr

/-- Python run-time errors reachable in the modelled part of
`COL._download`: `result[0]` on an empty list raises `IndexError`. -/
inductive PyError where
  | indexError
  deriving DecidableEq, Repr

/-- `COL.ACCEPTED_TERMS` from the source. -/
def ACCEPTED_TERMS : List String := ["accepted", "provisionally accepted"]

/-- `status in COL.ACCEPTED_TERMS` for an optional status; Python `None`
is not a member of a list of strings. -/
def statusAccepted : Option String → Bool
  | some s => ACCEPTED_TERMS.contains s
  | none => false

/-- The null record emitted for an empty search response. -/
def nullRecord (query : String) : NomenclatureRecord :=
  { origin_taxon := query, taxon_id := none, status := none, usage := none,
    classification := none }

/-- The placeholder item substituted when the operator answers `Skip`:
`{"id": None, "usage": None, "status": None, "classification": None}`. -/
def skipItem : ColItem := { id := none, usage := none, classification := none }

/-- `usage.get("status") if usage else None`. -/
def statusOf (r0 : ColItem) : Option String :=
  match r0.usage with
  | some u => u.status
  | none => none

/-- The record construction at the end of `COL._download` (lines 84-93):
extract `id`, `usage`, `status`, then the `check_syn` classification
filtering, then assemble the payload dictionary.  Note the Python
truthiness test `... if classification else None`: an empty lineage list is
falsy and collapses to `None`. -/
def buildRecord (check_syn : Bool) (query : String) (r0 : ColItem) :
    NomenclatureRecord :=
  let id := r0.id
  let usage := r0.usage
  let status := statusOf r0
  let classification := r0.classification
  let classification :=
    if check_syn && !(statusAccepted status) then
      let synonym_id : Option String :=
        match usage with
        | some u => u.id
        | none => none
      match classification with
      | some l => if l.isEmpty then none
                  else some (l.filter (fun item => item.id != synonym_id))
      | none => none
    else classification
  { origin_taxon := query, taxon_id := id, status := status, usage := usage,
    classification := classification }

/-- The body of `COL._download` after the JSON parse (lines 68-93).
`answer` is the operator's reply to the `input()` disambiguation prompt
(only consulted when more than one candidate is returned). -/
def colResolve (check_syn : Bool) (query : String) (isEmpty : Bool)
    (result : List ColItem) (answer : String) :
    Except PyError (List NomenclatureRecord) :=
  if isEmpty then
    .ok [nullRecord query]
  else
    let result1 :=
      if result.length > 1 then
        if answer = "Skip" then [skipItem]
        else result.filter (fun item => item.id == some answer)
      else result
    match result1 with
    | [] => .error .indexError
    | r0 :: _ => .ok [buildRecord check_syn query r0]

/-- `COL._download` (lines 53-95): log a non-200 status code as an error
(without raising), then process the parsed body.  The first component is
the log, the second the returned payload (or the raised Python error). -/
def _download (check_syn : Bool) (query : String) (resp : ColResponse)
    (answer : String) :
    List String × Except PyError (List NomenclatureRecord) :=
  let log : List String :=
    if resp.status_code ≠ 200 then
      ["COL response code: " ++ toString resp.status_code]
    else []
  (log, colResolve check_syn query resp.empty resp.result answer)

end COL

/-! ## INaturalist (`src/biodumpy/inputs/INaturalist.py`) -/

namespace INaturalist

/-- An iNaturalist photo object: the three fields of `x["photo"]` (and of
`default_photo`) that the code reads. -/
structure Photo where
  url : String
  license_code : Option String
  attribution : Option String
  deriving DecidableEq, Repr

/-- One item of the `results` list of the `/v1/taxa?q=...` search
response: the fields the code reads (`x["name"]`, `x["id"]`,
`x["default_photo"]`). -/
structure TaxaResult where
  name : String
  id : Nat
  default_photo : Option Photo
  deriving DecidableEq, Repr

/-- The parsed `/v1/taxa?q=...` search response. -/
structure TaxaResponse where
  status_code : Nat
  results : List TaxaResult
  deriving DecidableEq, Repr

/-- The parsed `/v1/taxa/{taxon_id}` detail response.  `taxon_photos`
models `results_id[0]["taxon_photos"]` with the `{"photo": ...}` wrapper
of each entry flattened away: the code only ever reads `x["photo"]`. -/
structure DetailResponse where
  status_code : Nat
  taxon_photos : List Photo
  deriving DecidableEq, Repr

/-- The output record shape built by `INaturalist._download`. -/
structure PhotoRecord where
  taxon : String
  image_id : Option String
  license_code : Option String
  attribution : Option String
  deriving DecidableEq, Repr

/-- `BiodumpyException` raised on a non-200 primary search response.  The
class lives in `biodumpy/biodumpy.py` (outside the analysed sources); only
its identity as a raised exception matters here, so it carries the status
code mentioned in the message. -/
inductive INatError where
  | biodumpyException (status_code : Nat)
  deriving DecidableEq, Repr

/-- `photo_license`: the fixed allow-list of downloadable licenses. -/
def photo_license : List String :=
  ["cc0", "cc-by", "cc-by-nc", "cc-by-nc-nd", "cc-by-sa", "cc-by-nd", "cc-by-nc-sa"]

/-- Python truthiness of an optional string: `None` and the empty string
are falsy. -/
def pyTruthyStr : Option String → Bool
  | none => false
  | some s => s != ""

/-- `x["photo"]["license_code"] in photo_license`: membership of an
optional license code in the allow-list (`None` is never a member). -/
def licenseAllowed : Option String → Bool
  | none => false
  | some s => photo_license.contains s

/-- The `image_id` derivation (lines 94-98 and 108-112):
`url.split("/")[-2] + "/" + url.split("/")[-1]`, then
`.replace("square", "medium")`.  Negative indexing is modelled through the
reversed segment list; a URL with a single segment, where Python would
raise `IndexError`, defaults to `""` and is excluded by hypothesis in the
theorems below. -/
def mkImageId (url : String) : String :=
  let parts := pySplitOn "/" url
  pyReplace ((parts.reverse.getD 1 "") ++ "/" ++ (parts.reverse.getD 0 ""))
    "square" "medium"

/-- The empty record `photo_details_empty` for a query. -/
def emptyRecord (query : String) : PhotoRecord :=
  { taxon := query, image_id := none, license_code := none, attribution := none }

/-- The record built from a chosen photo (identical shape on the
default-photo path and the occurrence-photos path). -/
def recordOfPhoto (query : String) (p : Photo) : PhotoRecord :=
  { taxon := query, image_id := some (mkImageId p.url),
    license_code := p.license_code, attribution := p.attribution }

/-- The `photo_info` selection of `INaturalist._download` (lines 78-81):
the default photo, kept only when its license code is truthy. -/
def defaultPhotoInfo (results_filtered : TaxaResult) : Option Photo :=
  match results_filtered.default_photo with
  | some dp => if pyTruthyStr dp.license_code then some dp else none
  | none => none

/-- `INaturalist._download` (lines 58-123).  `resp` is the primary
`/v1/taxa` search response; `detail` is the `/v1/taxa/{taxon_id}` response
the code would receive if it performs the fallback detail request.  A
non-200 primary status raises `BiodumpyException`; afterwards the
`response.status_code == 200` test is necessarily true, so its `else`
branch (lines 120-121) is dead code and has no counterpart here. -/
def _download (query : String) (resp : TaxaResponse) (detail : DetailResponse) :
    Except INatError (List PhotoRecord) :=
  if resp.status_code ≠ 200 then
    .error (.biodumpyException resp.status_code)
  else
    match resp.results.find? (fun x => x.name == query) with
    | none => .ok [emptyRecord query]
    | some results_filtered =>
      match defaultPhotoInfo results_filtered with
      | some pi => .ok [recordOfPhoto query pi]
      | none =>
        if detail.status_code = 200 then
          match detail.taxon_photos.find? (fun p => licenseAllowed p.license_code) with
          | some pd => .ok [recordOfPhoto query pd]
          | none => .ok [emptyRecord query]
        else .ok [emptyRecord query]

/-- The spec's description of the `image_id` derivation, stated in its own
words: take the last two path segments of the photo URL, join them with
`/`, and replace any `square` substring with `medium`. -/
def joinSlash : List String → String
  | [] => ""
  | [a] => a
  | a :: rest => a ++ "/" ++ joinSlash rest

/-- Spec-side `image_id` transform (see `joinSlash`). -/
def specImageId (url : String) : String :=
  let segs := pySplitOn "/" url
  pyReplace (joinSlash (segs.drop (segs.length - 2))) "square" "medium"

end INaturalist

/-! ## NCBI (`src/biodumpy/inputs/NCBI.py`) -/

namespace NCBI

/-- One Entrez summary, with the two fields `download_ids` reads:
`summary['Id']` and `int(summary['Length'])`.  Sequence lengths are
non-negative, so `Nat` models the parsed integer. -/
structure IdSummary where
  Id : String
  Length : Nat
  deriving DecidableEq, Repr

/-- The outcome of one iteration of the `download_ids` paging loop: either
the Entrez search/summary round-trip succeeds and yields the summaries of
that page, or some step of the iteration raises (any exception), which
stops the loop. -/
inductive IdsBatch where
  | ok (summaries : List IdSummary)
  | err
  deriving DecidableEq, Repr

/-- The summary-processing inner loop of `download_ids` (lines 81-84): add
`summary['Id']` to the accumulator when `bp <= max_bp` and the id is not
yet present.  The Python `set` is modelled as a duplicate-free list in
insertion order. -/
def processSummaries (max_bp : Nat) (acc : List String) :
    List IdSummary → List String
  | [] => acc
  | s :: rest =>
    if s.Length ≤ max_bp && !(acc.contains s.Id) then
      processSummaries max_bp (acc ++ [s.Id]) rest
    else
      processSummaries max_bp acc rest

/-- The paging loop of `download_ids` (lines 70-89): process each page's
summaries in order; the first raising page breaks out of the loop, keeping
the partial accumulator. -/
def idsLoop (max_bp : Nat) : List IdsBatch → List String → List String
  | [], acc => acc
  | .err :: _, acc => acc
  | .ok summaries :: rest, acc =>
    idsLoop max_bp rest (processSummaries max_bp acc summaries)

/-- `NCBI.download_ids` (lines 62-91), with the paging already reflected
in `batches`: one `IdsBatch` per `range(0, total_ids, step)` iteration. -/
def download_ids (max_bp : Nat) (batches : List IdsBatch) : List String :=
  idsLoop max_bp batches []

/-- All summaries of the non-raising pages, in order. -/
def allSummaries (batches : List IdsBatch) : List IdSummary :=
  batches.flatMap fun b =>
    match b with
    | .ok summaries => summaries
    | .err => []

/-- The outcome of one `Entrez.efetch` attempt inside `download_seq`:
success with the handle's content, an `IncompleteRead`, or any other
exception. -/
inductive FetchResult where
  | ok (content : String)
  | incompleteRead
  | otherError
  deriving DecidableEq, Repr

/-- Observable events of `download_seq`: the `IncompleteRead` warning for
a given attempt, the fixed backoff sleep (in seconds), the error log of the
non-retryable branch, and the final failure log emitted when
`attempt == retries`. -/
inductive SeqEvent where
  | warnIncomplete (attempt retries : Nat)
  | sleep (seconds : Nat)
  | errorOther
  | failAfter (retries : Nat)
  deriving DecidableEq, Repr

/-- The `fasta` branch of the successful fetch:
`handle.read().split('\n\n')[:-1]`. -/
def parseFasta (content : String) : List String :=
  (pySplitOn "\n\n" content).dropLast

/-- Post-processing of a successful fetch (lines 115-119): raw FASTA text
blocks, or the `SeqIO` parse for other return types.  The `SeqIO` parse is
an external library call, passed in as the opaque function `parseOther`. -/
def processContent (rettype : String) (parseOther : String → List String)
    (content : String) : List String :=
  if rettype = "fasta" then parseFasta content else parseOther content

/-- The `while attempt < retries` loop of `download_seq` (lines 108-133),
including the post-loop `if attempt == retries` failure log.  `fetch n` is
the outcome of the attempt numbered `n` (starting at 0); `fuel` equals
`retries - attempt`, so the loop guard `attempt < retries` is `fuel > 0`. -/
def seqLoop (fetch : Nat → FetchResult) (rettype : String)
    (parseOther : String → List String) (retries : Nat) :
    Nat → Nat → List SeqEvent × Option (List String)
  | _, 0 => ([SeqEvent.failAfter retries], none)
  | attempt, fuel + 1 =>
    match fetch attempt with
    | .ok content => ([], some (processContent rettype parseOther content))
    | .incompleteRead =>
      let rest := seqLoop fetch rettype parseOther retries (attempt + 1) fuel
      (SeqEvent.warnIncomplete (attempt + 1) retries :: SeqEvent.sleep 2 :: rest.1,
        rest.2)
    | .otherError => ([SeqEvent.errorOther], none)

/-- `NCBI.download_seq` (lines 107-133): the retry loop started at
`attempt = 0`.  The first component is the event trace, the second the
returned value — `none` models Python falling off the function (returning
`None`) after the loop. -/
def download_seq (fetch : Nat → FetchResult) (rettype : String)
    (parseOther : String → List String) (retries : Nat) :
    List SeqEvent × Option (List String) :=
  seqLoop fetch rettype parseOther retries 0 retries

/-- The event trace produced by `k` consecutive `IncompleteRead` failures:
a warning and a 2-second sleep per failed attempt. -/
def retryEvents (retries k : Nat) : List SeqEvent :=
  (List.range k).flatMap fun i =>
    [SeqEvent.warnIncomplete (i + 1) retries, SeqEvent.sleep 2]

/-- Worker for `split_to_batches`: consecutive chunks of `n` elements.
The fuel starts at the list length and never runs out for a positive
batch size. -/
def splitToBatchesAux (n : Nat) : Nat → List α → List (List α)
  | 0, _ => []
  | _ + 1, [] => []
  | fuel + 1, x :: rest =>
    (x :: rest).take n :: splitToBatchesAux n fuel ((x :: rest).drop n)

/-- Modelled from the spec: `split_to_batches` from `biodumpy/utils.py`,
which is not among the analysed sources.  Per the spec, phase-1 IDs "are
grouped into the same batch size": consecutive chunks of `n` elements.
The spec does not describe a zero batch size; that case returns no
batches. -/
def split_to_batches (n : Nat) (xs : List α) : List (List α) :=
  if n = 0 then [] else splitToBatchesAux n xs.length xs

/-- The Python error raised by `NCBI.download` when `download_seq` returns
`None` for a batch: `for seq in None` raises `TypeError`. -/
inductive PyRunError where
  | typeErrorNoneNotIterable
  deriving DecidableEq, Repr

/-- The batched-retrieval loop of `NCBI.download` (lines 39-43):
`for seq_id in split_to_batches(...)`, appending every sequence of each
batch to the payload.  `seqResult` gives `download_seq`'s returned value
for a batch; iterating a `None` result raises `TypeError`, aborting the
loop.  The `json.loads(json.dumps(seq, cls=CustomEncoder))` round-trip is
the identity on the string-shaped sequences modelled here. -/
def downloadGo (seqResult : List String → Option (List String)) :
    List (List String) → List String → Except PyRunError (List String)
  | [], payload => .ok payload
  | batch :: rest, payload =>
    match seqResult batch with
    | none => .error .typeErrorNoneNotIterable
    | some seqs => downloadGo seqResult rest (payload ++ seqs)

/-- `NCBI.download` (lines 35-44): phase-1 ID discovery, batching with the
configured step, then batched retrieval via `download_seq` with the
instance `rettype` and the default `retries = 3`.  `fetchFor batch n` is
the outcome of `Entrez.efetch` attempt `n` for that batch. -/
def download (max_bp step : Nat) (idBatches : List IdsBatch)
    (fetchFor : List String → Nat → FetchResult) (rettype : String)
    (parseOther : String → List String) : Except PyRunError (List String) :=
  let ids_list := download_ids max_bp idBatches
  downloadGo
    (fun batch => (download_seq (fetchFor batch) rettype parseOther 3).2)
    (split_to_batches step ids_list) []

end NCBI

/-! ## Concrete fixtures used by witnesses and counterexamples -/

/-- A COL candidate whose usage carries a non-accepted status. -/
def colItemSyn : COL.ColItem :=
  { id := some "a",
    usage := some { id := some "ua", status := some "synonym", extra := "x" },
    classification := some [{ id := some "ua", data := "d1" },
                            { id := some "k", data := "d2" }] }

/-- A second COL candidate with a different id. -/
def colItemB : COL.ColItem := { id := some "b", usage := none, classification := none }

/-- A COL candidate whose usage carries the status `accepted`. -/
def colItemAcc : COL.ColItem :=
  { id := some "a",
    usage := some { id := some "ua", status := some "accepted", extra := "x" },
    classification := some [{ id := some "ua", data := "d1" }] }

/-- A COL response marked empty. -/
def colRespEmpty : COL.ColResponse := { status_code := 200, empty := true, result := [] }

/-- A COL response with two candidates. -/
def colRespMulti : COL.ColResponse :=
  { status_code := 200, empty := false, result := [colItemSyn, colItemB] }

/-- A COL response with a single non-accepted candidate. -/
def colRespSingleSyn : COL.ColResponse :=
  { status_code := 200, empty := false, result := [colItemSyn] }

/-- A COL response with a single accepted candidate. -/
def colRespSingleAcc : COL.ColResponse :=
  { status_code := 200, empty := false, result := [colItemAcc] }

/-- An iNaturalist default photo whose license code is outside the
allow-list. -/
def inatPhotoOdd : INaturalist.Photo :=
  { url := "a/b/c", license_code := some "foo", attribution := some "me" }

/-- A taxa search response whose matching taxon carries `inatPhotoOdd` as
its default photo. -/
def inatRespOdd : INaturalist.TaxaResponse :=
  { status_code := 200,
    results := [{ name := "X", id := 1, default_photo := some inatPhotoOdd }] }

/-- A taxa search response whose matching taxon has no default photo. -/
def inatRespNoDefault : INaturalist.TaxaResponse :=
  { status_code := 200,
    results := [{ name := "X", id := 1, default_photo := none }] }

/-- A detail response with no photos. -/
def inatDetailEmpty : INaturalist.DetailResponse :=
  { status_code := 200, taxon_photos := [] }

/-- A detail response whose photo list starts with a disallowed license
followed by an allow-listed one. -/
def inatDetailMixed : INaturalist.DetailResponse :=
  { status_code := 200,
    taxon_photos := [{ url := "p/q/sq/bad.jpg", license_code := some "foo",
                       attribution := some "who" },
                     { url := "p/q/200/square.jpg", license_code := some "cc-by",
                       attribution := some "who" }] }

/-- Phase-1 input pages for the NCBI fixtures: two ids below the length
bound, one above it, and one duplicate. -/
def ncbiBatchesW : List NCBI.IdsBatch :=
  [.ok [{ Id := "A", Length := 10 }, { Id := "B", Length := 9999 },
        { Id := "A", Length := 10 }, { Id := "C", Length := 5000 }]]

/-- Phase-1 input page holding the two ids `A` and `B`. -/
def ncbiBatchesAB : List NCBI.IdsBatch :=
  [.ok [{ Id := "A", Length := 10 }, { Id := "B", Length := 10 }]]

/-- Phase-1 input page holding the single id `B`. -/
def ncbiBatchesB : List NCBI.IdsBatch :=
  [.ok [{ Id := "B", Length := 10 }]]

/-- A per-batch fetch oracle: every attempt for the batch `["A"]` raises a
non-retryable error, every other batch succeeds at once. -/
def ncbiFetchForW (batch : List String) (_attempt : Nat) : NCBI.FetchResult :=
  if batch = ["A"] then .otherError else .ok "seqB\n\n"

/-- A fetch oracle whose first attempt raises `IncompleteRead` and whose
later attempts succeed. -/
def ncbiFetchRetryW (attempt : Nat) : NCBI.FetchResult :=
  if attempt = 0 then .incompleteRead else .ok "s1\n\ns2\n\n"

/-! ## Helper lemmas -/

/-- If `c` is the unique element of `l` satisfying `p`, the filtered list
starts with `c`. -/
theorem filter_cons_of_unique {α : Type} {p : α → Bool} :
    ∀ {l : List α} {c : α}, c ∈ l → p c = true →
      (∀ x ∈ l, p x = true → x = c) → ∃ rest, l.filter p = c :: rest := by
  intro l
  induction l with
  | nil => intro c hc _ _; cases hc
  | cons a t ih =>
    intro c hc hpc huniq
    by_cases hpa : p a = true
    · have hac : a = c := huniq a (List.mem_cons_self a t) hpa
      subst hac
      exact ⟨t.filter p, by simp [List.filter_cons, hpa]⟩
    · have hpa0 : p a = false := by
        cases h : p a with
        | true => exact absurd h hpa
        | false => rfl
      have hct : c ∈ t := by
        cases List.mem_cons.mp hc with
        | inl h => subst h; exact absurd hpc hpa
        | inr h => exact h
      obtain ⟨rest, hrest⟩ :=
        ih hct hpc (fun x hx hpx => huniq x (List.mem_cons_of_mem a hx) hpx)
      exact ⟨rest, by simp [List.filter_cons, hpa0, hrest]⟩

/-! ## Claims about COL -/

/-- C4: for every query whose checklist response is marked empty,
`COL._download` returns exactly the one-element list holding the null
record whose `origin_taxon` is the input query. -/
theorem col_empty_null_record (check_syn : Bool) (query : String)
    (resp : COL.ColResponse) (answer : String) (h : resp.empty = true) :
    (COL._download check_syn query resp answer).2 =
      .ok [{ origin_taxon := query, taxon_id := none, status := none,
             usage := none, classification := none }] := by
  simp [COL._download, COL.colResolve, h, COL.nullRecord]

/-- Witness for `col_empty_null_record` at the end-to-end example of the
spec. -/
theorem col_empty_null_record_witness :
    colRespEmpty.empty = true ∧
    (COL._download false "Unknown Fake Taxonname" colRespEmpty "").2 =
      .ok [{ origin_taxon := "Unknown Fake Taxonname", taxon_id := none,
             status := none, usage := none, classification := none }] :=
  ⟨rfl, col_empty_null_record false "Unknown Fake Taxonname" colRespEmpty "" rfl⟩

/-- C6: on a non-200 checklist response `COL._download` does not raise on
the status: it logs the status code as an error and proceeds to process
the parsed JSON body exactly as it would for a 200 response. -/
theorem col_non200_logs_and_parses (check_syn : Bool) (query : String)
    (resp : COL.ColResponse) (answer : String) (h : resp.status_code ≠ 200) :
    (COL._download check_syn query resp answer).1 =
      ["COL response code: " ++ toString resp.status_code] ∧
    (COL._download check_syn query resp answer).2 =
      (COL._download check_syn query { resp with status_code := 200 } answer).2 := by
  constructor
  · simp [COL._download, h]
  · simp [COL._download]

/-- Witness for `col_non200_logs_and_parses` at a 404 response. -/
theorem col_non200_logs_and_parses_witness :
    ({ colRespEmpty with status_code := 404 } : COL.ColResponse).status_code ≠ 200 ∧
    (COL._download false "Q" { colRespEmpty with status_code := 404 } "").1 =
      ["COL response code: 404"] :=
  ⟨by decide,
   (col_non200_logs_and_parses false "Q" { colRespEmpty with status_code := 404 } ""
     (by decide)).1⟩

/-- C5: with more than one candidate, answering `Skip` yields a record
whose `taxon_id`, `status`, `usage` and `classification` are all null, and
answering with the id of one of the candidates (unique to it) yields the
single record built from exactly that candidate. -/
theorem col_disambiguation (check_syn : Bool) (query : String)
    (resp : COL.ColResponse) :
    (resp.empty = false → resp.result.length > 1 →
      (COL._download check_syn query resp "Skip").2 =
        .ok [{ origin_taxon := query, taxon_id := none, status := none,
               usage := none, classification := none }]) ∧
    (∀ answer c, resp.empty = false → resp.result.length > 1 →
      answer ≠ "Skip" → c ∈ resp.result → c.id = some answer →
      (∀ c2 ∈ resp.result, c2.id = some answer → c2 = c) →
      (COL._download check_syn query resp answer).2 =
        .ok [COL.buildRecord check_syn query c]) := by
  constructor
  · intro hemp hlen
    simp only [COL._download, COL.colResolve, hemp, Bool.false_eq_true,
      if_false, if_pos hlen, if_pos rfl]
    simp [COL.buildRecord, COL.skipItem, COL.statusOf, COL.statusAccepted]
  · intro answer c hemp hlen hans hmem hid huniq
    have hfilter :
        ∃ rest, resp.result.filter (fun item => item.id == some answer)
          = c :: rest := by
      apply filter_cons_of_unique hmem
      · simp [hid]
      · intro x hx hpx
        exact huniq x hx (by simpa using hpx)
    obtain ⟨rest, hrest⟩ := hfilter
    simp only [COL._download, COL.colResolve, hemp, Bool.false_eq_true,
      if_false, if_pos hlen, if_neg hans, hrest]

/-- Witness for `col_disambiguation`: both the `Skip` branch and a valid
candidate id on a two-candidate response. -/
theorem col_disambiguation_witness :
    (colRespMulti.empty = false ∧ colRespMulti.result.length > 1 ∧
      (COL._download true "Q" colRespMulti "Skip").2 =
        .ok [{ origin_taxon := "Q", taxon_id := none, status := none,
               usage := none, classification := none }]) ∧
    (COL._download true "Q" colRespMulti "b").2 =
      .ok [COL.buildRecord true "Q" colItemB] :=
  ⟨⟨rfl, by decide,
    (col_disambiguation true "Q" colRespMulti).1 rfl (by decide)⟩,
   (col_disambiguation true "Q" colRespMulti).2 "b" colItemB rfl (by decide)
     (by decide) (by decide) rfl (by decide)⟩

/-- C10: with more than one candidate, an answer that is neither `Skip`
nor the id of any candidate leaves the filtered list empty, so
`COL._download` raises `IndexError` at `result[0]`. -/
theorem col_invalid_answer_index_error (check_syn : Bool) (query : String)
    (resp : COL.ColResponse) (answer : String)
    (h1 : resp.empty = false) (h2 : resp.result.length > 1)
    (h3 : answer ≠ "Skip") (h4 : ∀ c ∈ resp.result, c.id ≠ some answer) :
    (COL._download check_syn query resp answer).2 = .error .indexError := by
  have hfilter : resp.result.filter (fun item => item.id == some answer) = [] := by
    rw [List.filter_eq_nil_iff]
    intro a ha
    simp [h4 a ha]
  simp only [COL._download, COL.colResolve, h1, Bool.false_eq_true, if_false,
    if_pos h2, if_neg h3, hfilter]

/-- Witness for `col_invalid_answer_index_error` at an answer matching no
candidate. -/
theorem col_invalid_answer_index_error_witness :
    colRespMulti.empty = false ∧ colRespMulti.result.length > 1 ∧
    "zzz" ≠ "Skip" ∧
    (COL._download true "Q" colRespMulti "zzz").2 = .error .indexError :=
  ⟨rfl, by decide, by decide,
   col_invalid_answer_index_error true "Q" colRespMulti "zzz" rfl (by decide)
     (by decide) (by decide)⟩

/-- C9: with `check_syn` enabled and a single resolved candidate, an
accepted status leaves the classification unchanged, while a non-accepted
status removes exactly the classification entries whose id equals the
resolved usage's nested id and keeps every other entry unchanged. -/
theorem col_check_syn_frame (query : String) (resp : COL.ColResponse)
    (r0 : COL.ColItem) (answer : String)
    (h1 : resp.empty = false) (h2 : resp.result = [r0]) :
    (COL.statusAccepted (COL.statusOf r0) = true →
      (COL._download true query resp answer).2 =
        .ok [{ origin_taxon := query, taxon_id := r0.id,
               status := COL.statusOf r0, usage := r0.usage,
               classification := r0.classification }]) ∧
    (∀ u l, COL.statusAccepted (COL.statusOf r0) = false →
      r0.usage = some u → r0.classification = some l → l ≠ [] →
      (COL._download true query resp answer).2 =
        .ok [{ origin_taxon := query, taxon_id := r0.id,
               status := COL.statusOf r0, usage := r0.usage,
               classification :=
                 some (l.filter (fun e => e.id != u.id)) }]) := by
  have hbase :
      (COL._download true query resp answer).2 =
        .ok [COL.buildRecord true query r0] := by
    simp [COL._download, COL.colResolve, h1, h2]
  constructor
  · intro hacc
    rw [hbase]
    simp [COL.buildRecord, hacc]
  · intro u l hacc husage hclass hne
    rw [hbase]
    simp [COL.buildRecord, hacc, husage, hclass, List.isEmpty_iff, hne]

/-- Witness for `col_check_syn_frame`: the accepted candidate keeps its
lineage, the synonym candidate loses exactly its own entry. -/
theorem col_check_syn_frame_witness :
    (colRespSingleAcc.empty = false ∧
      COL.statusAccepted (COL.statusOf colItemAcc) = true ∧
      (COL._download true "Q" colRespSingleAcc "x").2 =
        .ok [{ origin_taxon := "Q", taxon_id := colItemAcc.id,
               status := COL.statusOf colItemAcc, usage := colItemAcc.usage,
               classification := colItemAcc.classification }]) ∧
    (COL._download true "Q" colRespSingleSyn "x").2 =
      .ok [{ origin_taxon := "Q", taxon_id := colItemSyn.id,
             status := COL.statusOf colItemSyn, usage := colItemSyn.usage,
             classification :=
               some ([{ id := some "ua", data := "d1" },
                      { id := some "k", data := "d2" }].filter
                 (fun e => e.id != some "ua")) }] :=
  ⟨⟨rfl, by decide,
    (col_check_syn_frame "Q" colRespSingleAcc colItemAcc "x" rfl rfl).1 (by decide)⟩,
   (col_check_syn_frame "Q" colRespSingleSyn colItemSyn "x" rfl rfl).2
     { id := some "ua", status := some "synonym", extra := "x" }
     [{ id := some "ua", data := "d1" }, { id := some "k", data := "d2" }]
     (by decide) rfl rfl (by decide)⟩

/-! ## Claims about INaturalist -/

/-- C8: `image_id` is the pure string transform of the chosen photo's URL
that joins the last two path segments with `/` and replaces any `square`
substring with `medium`, and both the default-photo path and the
occurrence-photos path derive `image_id` by exactly that transform. -/
theorem inat_image_id_transform :
    (∀ url, 2 ≤ (pySplitOn "/" url).length →
      INaturalist.mkImageId url = INaturalist.specImageId url) ∧
    (∀ q (resp : INaturalist.TaxaResponse) detail rf dp,
      resp.status_code = 200 →
      resp.results.find? (fun x => x.name == q) = some rf →
      INaturalist.defaultPhotoInfo rf = some dp →
      INaturalist._download q resp detail =
        .ok [{ taxon := q, image_id := some (INaturalist.mkImageId dp.url),
               license_code := dp.license_code,
               attribution := dp.attribution }]) ∧
    (∀ q (resp : INaturalist.TaxaResponse)
        (detail : INaturalist.DetailResponse) rf pd,
      resp.status_code = 200 →
      resp.results.find? (fun x => x.name == q) = some rf →
      INaturalist.defaultPhotoInfo rf = none →
      detail.status_code = 200 →
      detail.taxon_photos.find?
        (fun p => INaturalist.licenseAllowed p.license_code) = some pd →
      INaturalist._download q resp detail =
        .ok [{ taxon := q, image_id := some (INaturalist.mkImageId pd.url),
               license_code := pd.license_code,
               attribution := pd.attribution }]) := by
  refine ⟨?_, ?_, ?_⟩
  · intro url hlen
    simp only [INaturalist.mkImageId, INaturalist.specImageId]
    match hr : (pySplitOn "/" url).reverse with
    | [] =>
      exfalso
      have h0 := congrArg List.length hr
      simp only [List.length_reverse, List.length_nil] at h0
      omega
    | [x] =>
      exfalso
      have h0 := congrArg List.length hr
      simp only [List.length_reverse, List.length_cons, List.length_nil] at h0
      omega
    | x :: y :: t =>
      have hle : pySplitOn "/" url = t.reverse ++ [y, x] := by
        have h1 := List.reverse_eq_iff.mp hr
        simpa using h1
      rw [hle]
      have hlen2 : (t.reverse ++ [y, x]).length - 2 = t.reverse.length := by
        simp [List.length_append]
      rw [hlen2, List.drop_left]
      simp [INaturalist.joinSlash, List.getD_cons_zero, List.getD_cons_succ]
  · intro q resp detail rf dp h200 hfind hdp
    simp [INaturalist._download, h200, hfind, hdp, INaturalist.recordOfPhoto]
  · intro q resp detail rf pd h200 hfind hdp hdet hpd
    simp [INaturalist._download, h200, hfind, hdp, hdet, hpd,
      INaturalist.recordOfPhoto]

/-- Witness for `inat_image_id_transform`: the transform agreement on the
URL of the claim's example, evaluating to `200/icon.jpg`, and the
default-photo path at a concrete response. -/
theorem inat_image_id_transform_witness :
    2 ≤ (pySplitOn "/" "https://s3.amazonaws.com/photos/200/icon.jpg").length ∧
    INaturalist.mkImageId "https://s3.amazonaws.com/photos/200/icon.jpg" =
      INaturalist.specImageId "https://s3.amazonaws.com/photos/200/icon.jpg" ∧
    INaturalist.specImageId "https://s3.amazonaws.com/photos/200/icon.jpg" =
      "200/icon.jpg" ∧
    INaturalist._download "X" inatRespOdd inatDetailEmpty =
      .ok [{ taxon := "X",
             image_id := some (INaturalist.mkImageId inatPhotoOdd.url),
             license_code := inatPhotoOdd.license_code,
             attribution := inatPhotoOdd.attribution }] :=
  ⟨by decide,
   inat_image_id_transform.1 "https://s3.amazonaws.com/photos/200/icon.jpg"
     (by decide),
   by decide,
   inat_image_id_transform.2.1 "X" inatRespOdd inatDetailEmpty
     { name := "X", id := 1, default_photo := some inatPhotoOdd } inatPhotoOdd
     rfl (by decide) (by decide)⟩

/-- C1 counterexample: on the default-photo path the license code is only
checked for truthiness, so a default photo licensed `foo` — outside the
7-item allow-list — is surfaced with `license_code = some "foo"`. -/
theorem inat_license_allowlist_cex :
    INaturalist._download "X" inatRespOdd inatDetailEmpty =
      .ok [{ taxon := "X", image_id := some "b/c", license_code := some "foo",
             attribution := some "me" }] ∧
    INaturalist.photo_license.contains "foo" = false := by
  constructor
  · rfl
  · decide

/-- C1 amended: when the default-photo path is not taken (the matching
taxon has no default photo with a truthy license code), every non-null
`license_code` in the returned record is a member of the 7-item
allow-list; the default-photo path itself surfaces any truthy license
code unchecked. -/
theorem inat_license_allowlist_amended (q : String)
    (resp : INaturalist.TaxaResponse) (detail : INaturalist.DetailResponse)
    (rf : INaturalist.TaxaResult) (r : INaturalist.PhotoRecord) (s : String)
    (hfind : resp.results.find? (fun x => x.name == q) = some rf)
    (hnodef : INaturalist.defaultPhotoInfo rf = none)
    (hres : INaturalist._download q resp detail = .ok [r])
    (hlc : r.license_code = some s) :
    INaturalist.photo_license.contains s = true := by
  by_cases h200 : resp.status_code = 200
  · by_cases hdet : detail.status_code = 200
    · cases hfp : detail.taxon_photos.find?
        (fun p => INaturalist.licenseAllowed p.license_code) with
      | none =>
        simp [INaturalist._download, h200, hfind, hnodef, hdet, hfp,
          INaturalist.emptyRecord] at hres
        rw [← hres] at hlc
        simp at hlc
      | some pd =>
        have hall : INaturalist.licenseAllowed pd.license_code = true := by
          have h1 := List.find?_some hfp
          simpa using h1
        simp [INaturalist._download, h200, hfind, hnodef, hdet, hfp,
          INaturalist.recordOfPhoto] at hres
        rw [← hres] at hlc
        simp at hlc
        rw [hlc] at hall
        simpa [INaturalist.licenseAllowed] using hall
    · simp [INaturalist._download, h200, hfind, hnodef, hdet,
        INaturalist.emptyRecord] at hres
      rw [← hres] at hlc
      simp at hlc
  · simp [INaturalist._download, h200] at hres

/-- Witness for `inat_license_allowlist_amended`: a taxon without default
photo resolved through the occurrence-photos fallback, yielding the
allow-listed license `cc-by`. -/
theorem inat_license_allowlist_amended_witness :
    (inatRespNoDefault.results.find? (fun x => x.name == "X") =
      some { name := "X", id := 1, default_photo := none }) ∧
    INaturalist.defaultPhotoInfo { name := "X", id := 1, default_photo := none } =
      none ∧
    INaturalist._download "X" inatRespNoDefault inatDetailMixed =
      .ok [{ taxon := "X", image_id := some "200/medium.jpg",
             license_code := some "cc-by", attribution := some "who" }] ∧
    INaturalist.photo_license.contains "cc-by" = true :=
  ⟨by decide, by decide, by rfl,
   inat_license_allowlist_amended "X" inatRespNoDefault inatDetailMixed
     { name := "X", id := 1, default_photo := none }
     { taxon := "X", image_id := some "200/medium.jpg",
       license_code := some "cc-by", attribution := some "who" } "cc-by"
     (by decide) (by decide) (by rfl) (by decide)⟩

/-! ## Claims about NCBI -/

/-- C3: a batch fetch that fails with `IncompleteRead` on fewer than 3
attempts and then succeeds returns the successful fetch's processed
result, with a warning and a fixed 2-second sleep per failed attempt; 3
consecutive `IncompleteRead` failures yield no result and end with the
logged failure. -/
theorem ncbi_download_seq_retry (fetch : Nat → NCBI.FetchResult)
    (rettype : String) (parseOther : String → List String) (c : String)
    (k : Nat) :
    (k < 3 → (∀ i, i < k → fetch i = .incompleteRead) → fetch k = .ok c →
      NCBI.download_seq fetch rettype parseOther 3 =
        (NCBI.retryEvents 3 k,
         some (NCBI.processContent rettype parseOther c))) ∧
    ((∀ i, i < 3 → fetch i = .incompleteRead) →
      NCBI.download_seq fetch rettype parseOther 3 =
        (NCBI.retryEvents 3 3 ++ [NCBI.SeqEvent.failAfter 3], none)) := by
  constructor
  · intro hk hpre hok
    interval_cases k
    · simp [NCBI.download_seq, NCBI.seqLoop, hok, NCBI.retryEvents]
    · have h0 := hpre 0 (by omega)
      simp [NCBI.download_seq, NCBI.seqLoop, h0, hok, NCBI.retryEvents,
        List.range_succ]
    · have h0 := hpre 0 (by omega)
      have h1 := hpre 1 (by omega)
      simp [NCBI.download_seq, NCBI.seqLoop, h0, h1, hok, NCBI.retryEvents,
        List.range_succ]
  · intro hall
    have h0 := hall 0 (by omega)
    have h1 := hall 1 (by omega)
    have h2 := hall 2 (by omega)
    simp [NCBI.download_seq, NCBI.seqLoop, h0, h1, h2, NCBI.retryEvents,
      List.range_succ]

/-- Witness for `ncbi_download_seq_retry`: one `IncompleteRead` followed
by a successful FASTA fetch. -/
theorem ncbi_download_seq_retry_witness :
    (1 < 3 ∧ (∀ i, i < 1 → ncbiFetchRetryW i = .incompleteRead) ∧
      ncbiFetchRetryW 1 = .ok "s1\n\ns2\n\n") ∧
    NCBI.download_seq ncbiFetchRetryW "fasta" (fun _ => []) 3 =
      ([NCBI.SeqEvent.warnIncomplete 1 3, NCBI.SeqEvent.sleep 2],
       some ["s1", "s2"]) :=
  ⟨⟨by decide, by decide, by rfl⟩,
   (ncbi_download_seq_retry ncbiFetchRetryW "fasta" (fun _ => [])
     "s1\n\ns2\n\n" 1).1 (by decide) (by decide) (by rfl)⟩

/-- `processSummaries` preserves duplicate-freeness of the accumulator. -/
theorem processSummaries_nodup (max_bp : Nat) :
    ∀ (l : List NCBI.IdSummary) (acc : List String), acc.Nodup →
      (NCBI.processSummaries max_bp acc l).Nodup := by
  intro l
  induction l with
  | nil => intro acc hacc; simpa [NCBI.processSummaries] using hacc
  | cons s rest ih =>
    intro acc hacc
    simp only [NCBI.processSummaries]
    by_cases hcond : (s.Length ≤ max_bp && !(acc.contains s.Id)) = true
    · rw [if_pos hcond]
      apply ih
      rw [List.nodup_append]
      refine ⟨hacc, List.nodup_singleton s.Id, ?_⟩
      intro a ha hb
      have hb2 : a = s.Id := by simpa using hb
      subst hb2
      have hnc : acc.contains s.Id = false := by
        have := (Bool.and_eq_true _ _).mp hcond
        simpa using this.2
      exact absurd ha (by simpa using hnc)
    · rw [if_neg hcond]
      exact ih acc hacc

/-- Every id produced by `processSummaries` either was already in the
accumulator or comes from a summary of the batch whose length is within
the bound. -/
theorem processSummaries_mem (max_bp : Nat) :
    ∀ (l : List NCBI.IdSummary) (acc : List String) (x : String),
      x ∈ NCBI.processSummaries max_bp acc l →
      x ∈ acc ∨ ∃ s ∈ l, s.Id = x ∧ s.Length ≤ max_bp := by
  intro l
  induction l with
  | nil =>
    intro acc x hx
    exact Or.inl (by simpa [NCBI.processSummaries] using hx)
  | cons s rest ih =>
    intro acc x hx
    simp only [NCBI.processSummaries] at hx
    by_cases hcond : (s.Length ≤ max_bp && !(acc.contains s.Id)) = true
    · rw [if_pos hcond] at hx
      rcases ih (acc ++ [s.Id]) x hx with hin | ⟨t, ht, hid, hlen⟩
      · rcases List.mem_append.mp hin with hin1 | hin2
        · exact Or.inl hin1
        · have hx2 : x = s.Id := by simpa using hin2
          subst hx2
          refine Or.inr ⟨s, List.mem_cons_self s rest, rfl, ?_⟩
          have := (Bool.and_eq_true _ _).mp hcond
          exact of_decide_eq_true this.1
      · exact Or.inr ⟨t, List.mem_cons_of_mem s ht, hid, hlen⟩
    · rw [if_neg hcond] at hx
      rcases ih acc x hx with hin | ⟨t, ht, hid, hlen⟩
      · exact Or.inl hin
      · exact Or.inr ⟨t, List.mem_cons_of_mem s ht, hid, hlen⟩

/-- `idsLoop` preserves duplicate-freeness. -/
theorem idsLoop_nodup (max_bp : Nat) :
    ∀ (bs : List NCBI.IdsBatch) (acc : List String), acc.Nodup →
      (NCBI.idsLoop max_bp bs acc).Nodup := by
  intro bs
  induction bs with
  | nil => intro acc hacc; simpa [NCBI.idsLoop] using hacc
  | cons b rest ih =>
    intro acc hacc
    cases b with
    | err => simpa [NCBI.idsLoop] using hacc
    | ok summaries =>
      simp only [NCBI.idsLoop]
      exact ih _ (processSummaries_nodup max_bp summaries acc hacc)

/-- Every id produced by `idsLoop` either was already in the accumulator
or comes from a summary of a processed page with length within the
bound. -/
theorem idsLoop_mem (max_bp : Nat) :
    ∀ (bs : List NCBI.IdsBatch) (acc : List String) (x : String),
      x ∈ NCBI.idsLoop max_bp bs acc →
      x ∈ acc ∨ ∃ s ∈ NCBI.allSummaries bs, s.Id = x ∧ s.Length ≤ max_bp := by
  intro bs
  induction bs with
  | nil => intro acc x hx; exact Or.inl (by simpa [NCBI.idsLoop] using hx)
  | cons b rest ih =>
    intro acc x hx
    cases b with
    | err => exact Or.inl (by simpa [NCBI.idsLoop] using hx)
    | ok summaries =>
      simp only [NCBI.idsLoop] at hx
      rcases ih _ x hx with hin | ⟨t, ht, hid, hlen⟩
      · rcases processSummaries_mem max_bp summaries acc x hin with
          hin1 | ⟨t, ht, hid, hlen⟩
        · exact Or.inl hin1
        · refine Or.inr ⟨t, ?_, hid, hlen⟩
          simp [NCBI.allSummaries, ht]
      · refine Or.inr ⟨t, ?_, hid, hlen⟩
        simp only [NCBI.allSummaries, List.flatMap_cons, List.mem_append]
        exact Or.inr (by simpa [NCBI.allSummaries] using ht)

/-- C7: `download_ids` returns a duplicate-free collection whose every id
stems from a summary with length at most `max_bp`; under the natural
assumption that a given id always carries the same summary length, no
returned id has a summary length exceeding `max_bp`. -/
theorem ncbi_download_ids_invariant (max_bp : Nat)
    (batches : List NCBI.IdsBatch) :
    (NCBI.download_ids max_bp batches).Nodup ∧
    (∀ x ∈ NCBI.download_ids max_bp batches,
      ∃ s ∈ NCBI.allSummaries batches, s.Id = x ∧ s.Length ≤ max_bp) ∧
    ((∀ s1 ∈ NCBI.allSummaries batches, ∀ s2 ∈ NCBI.allSummaries batches,
        s1.Id = s2.Id → s1.Length = s2.Length) →
      ∀ s ∈ NCBI.allSummaries batches,
        s.Id ∈ NCBI.download_ids max_bp batches → s.Length ≤ max_bp) := by
  refine ⟨idsLoop_nodup max_bp batches [] (List.nodup_nil), ?_, ?_⟩
  · intro x hx
    rcases idsLoop_mem max_bp batches [] x hx with hin | hgood
    · cases hin
    · exact hgood
  · intro hfun s hs hmem
    rcases idsLoop_mem max_bp batches [] s.Id hmem with hin | ⟨t, ht, hid, hlen⟩
    · cases hin
    · have : t.Length = s.Length := hfun t ht s hs hid
      omega

/-- Witness for `ncbi_download_ids_invariant`: the id `A` of the concrete
input pages stems from a summary within the bound. -/
theorem ncbi_download_ids_invariant_witness :
    ("A" ∈ NCBI.download_ids 5000 ncbiBatchesW) ∧
    (∃ s ∈ NCBI.allSummaries ncbiBatchesW, s.Id = "A" ∧ s.Length ≤ 5000) :=
  ⟨by decide,
   (ncbi_download_ids_invariant 5000 ncbiBatchesW).2.1 "A" (by decide)⟩

/-- If any batch's retrieval yields `None`, the retrieval loop raises
`TypeError` instead of finishing. -/
theorem downloadGo_err (seqResult : List String → Option (List String)) :
    ∀ (bs : List (List String)) (payload : List String),
      (∃ b ∈ bs, seqResult b = none) →
      NCBI.downloadGo seqResult bs payload =
        .error .typeErrorNoneNotIterable := by
  intro bs
  induction bs with
  | nil =>
    intro payload h
    rcases h with ⟨b, hb, _⟩
    cases hb
  | cons b rest ih =>
    intro payload h
    rcases h with ⟨b2, hb2, hfail⟩
    cases hres : seqResult b with
    | none => simp [NCBI.downloadGo, hres]
    | some seqs =>
      rcases List.mem_cons.mp hb2 with heq | hmem
      · subst heq
        rw [hres] at hfail
        cases hfail
      · simp only [NCBI.downloadGo, hres]
        exact ih _ ⟨b2, hmem, hfail⟩

/-- C2 counterexample: with ids `A` and `B` in two one-element batches and
a fetch that always fails (non-retryably) for batch `["A"]`,
`NCBI.download` raises `TypeError` — batch `B` is never retrieved and no
payload is returned — although the very same fetch over batch `["B"]`
alone succeeds with a payload. -/
theorem ncbi_batch_failure_cex :
    NCBI.download 5000 1 ncbiBatchesAB ncbiFetchForW "fasta" (fun _ => []) =
      .error .typeErrorNoneNotIterable ∧
    NCBI.download 5000 1 ncbiBatchesB ncbiFetchForW "fasta" (fun _ => []) =
      .ok ["seqB"] := by
  constructor
  · rfl
  · rfl

/-- C2 amended: a batch whose retrieval fails (its `download_seq` returns
`None`) makes `NCBI.download` raise `TypeError` while iterating that
`None`, aborting the whole query's retrieval — the failing batch and all
batches after it contribute nothing, and no payload is returned. -/
theorem ncbi_batch_failure_aborts (max_bp step : Nat)
    (idBatches : List NCBI.IdsBatch)
    (fetchFor : List String → Nat → NCBI.FetchResult) (rettype : String)
    (parseOther : String → List String)
    (h : ∃ b ∈ NCBI.split_to_batches step (NCBI.download_ids max_bp idBatches),
      (NCBI.download_seq (fetchFor b) rettype parseOther 3).2 = none) :
    NCBI.download max_bp step idBatches fetchFor rettype parseOther =
      .error .typeErrorNoneNotIterable := by
  unfold NCBI.download
  exact downloadGo_err _ _ [] h

/-- Witness for `ncbi_batch_failure_aborts` at the concrete two-batch
input. -/
theorem ncbi_batch_failure_aborts_witness :
    (∃ b ∈ NCBI.split_to_batches 1 (NCBI.download_ids 5000 ncbiBatchesAB),
      (NCBI.download_seq (ncbiFetchForW b) "fasta" (fun _ => []) 3).2 = none) ∧
    NCBI.download 5000 1 ncbiBatchesAB ncbiFetchForW "fasta" (fun _ => []) =
      .error .typeErrorNoneNotIterable :=
  ⟨⟨["A"], by decide, by rfl⟩,
   ncbi_batch_failure_aborts 5000 1 ncbiBatchesAB ncbiFetchForW "fasta"
     (fun _ => []) ⟨["A"], by decide, by rfl⟩⟩
